import Mathlib

/-!
Verification of the fuzoku-radio message-submission backend.

The repository contains two HTTP services exposing the same REST endpoints:
`src/server/server.js` (SQLite storage) and an unnamed file (MongoDB/mongoose
storage).  Both are embedded shallowly below: request handlers become pure
functions from an explicit database state (lists of rows) and the request data
to a new state and a response value.  External nondeterminism (the generated
UUID token, the current clock, the client IP, fresh row ids, and the runtime
Date-string cast used by mongoose) is passed in as parameters.  Storage-layer
failures are external events; handlers are modelled on their non-failing
executions, except where a claim speaks about the error branch, in which case
the handler is additionally factored through an `Except` of the query result.
-/

/-- A JSON value as delivered by the body parser.  `Option Jval` models a
request-body field, `none` standing for an absent (`undefined`) field.
Numbers are modelled as integers; the only numeric fact the code relies on is
truthiness (`n != 0`). -/
inductive Jval where
  | jnull
  | jbool (b : Bool)
  | jnum (n : Int)
  | jstr (s : String)
deriving DecidableEq

/-- JavaScript truthiness of a possibly-absent JSON value: `undefined`,
`null`, `false`, `0` and `""` are falsy, everything else is truthy. -/
def jsTruthy : Option Jval → Bool
  | none => false
  | some Jval.jnull => false
  | some (Jval.jbool b) => b
  | some (Jval.jnum n) => n != 0
  | some (Jval.jstr s) => s != ""

/-- JavaScript truthiness restricted to string-valued fields (the text fields
of the request bodies): absent and the empty string are falsy. -/
def strTruthy : Option String → Bool
  | none => false
  | some s => s != ""

/-- Lexicographic comparison of strings by code point, as SQLite compares
TEXT values (and as the `<=` of the SQL queries behaves on the stored date
strings). -/
def charListLe : List Char → List Char → Bool
  | [], _ => true
  | _ :: _, [] => false
  | a :: as, b :: bs =>
    if a.val < b.val then true
    else if b.val < a.val then false
    else charListLe as bs

/-- String comparison used for the SQL `start_date <= ?` / `end_date >= ?`
predicates. -/
def strLe (a b : String) : Bool := charListLe a.data b.data

/-- Validity test `mongoose.Types.ObjectId.isValid`: a 24-character
hexadecimal string is a valid ObjectId, and so is any 12-character string
(interpreted as 12 raw bytes). -/
def isHexChar (c : Char) : Bool :=
  c.isDigit || (('a' : Char) ≤ c && c ≤ ('f' : Char)) || (('A' : Char) ≤ c && c ≤ ('F' : Char))

def isValidObjectId (s : String) : Bool :=
  (s.length == 24 && s.data.all isHexChar) || s.length == 12

/-- Decimal accumulator for `strToNat?`. -/
def charsToNatAux : List Char → Nat → Option Nat
  | [], acc => some acc
  | c :: cs, acc => if c.isDigit then charsToNatAux cs (acc * 10 + (c.toNat - 48)) else none

/-- Reading of a non-empty all-digit string as a number, modelling the SQLite
numeric-affinity conversion applied to a bound TEXT parameter before it is
compared with an INTEGER column: a non-numeric string converts to nothing
and then matches no INTEGER id. -/
def strToNat? (s : String) : Option Nat :=
  match s.data with
  | [] => none
  | cs => charsToNatAux cs 0

/-- Response of GET /api/verify-token/:token : 200 with valid=true,
401 with valid=false, or 500 on a storage failure. -/
inductive VerifyResult where
  | valid
  | invalid
  | storageError
deriving DecidableEq

/-- Response classification of DELETE /api/staff/themes/:id :
200 success, 400 invalid id, 404 theme not found. -/
inductive DeactivateResult where
  | success
  | invalidId
  | notFound
deriving DecidableEq

/-- HTTP status of a deactivate response. -/
def deactStatus : DeactivateResult → Nat
  | DeactivateResult.success => 200
  | DeactivateResult.invalidId => 400
  | DeactivateResult.notFound => 404

/-- Response classification of PUT /api/staff/messages/:id/read. -/
inductive MarkReadResult where
  | success
  | invalidId
deriving DecidableEq

/-- Response classification of POST /api/staff/themes.  `castError` models a
mongoose Date cast failure (surfaced as a 500); the SQLite service never
produces it. -/
inductive ThemeCreateResult (ι : Type) where
  | created (id : ι)
  | missingTitle
  | castError
deriving DecidableEq

/-- Response classification of POST /api/student/messages. -/
inductive SubmitResult (ι : Type) where
  | created (id : ι)
  | missingRequired
  | invalidThemeId
deriving DecidableEq

/-- Request body of POST /api/staff/themes. -/
structure ThemeBody where
  title : Option Jval
  description : Option String
  start_date : Option String
  end_date : Option String
deriving DecidableEq

/-- Request body of POST /api/student/messages.  Text fields are string
valued; the three share flags may be arbitrary JSON values, since only their
truthiness is used. -/
structure SubmitBody where
  sender_name : Option String
  radio_name : Option String
  school_year : Option String
  school_class : Option String
  theme_id : Option String
  content : Option String
  share_name : Option Jval
  share_class : Option Jval
  share_theme : Option Jval
deriving DecidableEq

/-- The derived display class, from both services:
`(school_year && school_class) ? \x7bschool_year\x7d年\x7bschool_class\x7d組 : null`. -/
def fullClassOf (b : SubmitBody) : Option String :=
  if strTruthy b.school_year && strTruthy b.school_class then
    some (b.school_year.getD "" ++ "年" ++ b.school_class.getD "" ++ "組")
  else none

namespace Sqlite

/-- A row of the `themes` table.  `created_at` is modelled as a numeric
timestamp (the stored DATETIME strings order chronologically), `is_active`
as a Bool (the table only ever holds 0 or 1). -/
structure Theme where
  id : Nat
  title : Jval
  description : Option String
  start_date : Option String
  end_date : Option String
  created_at : Nat
  is_active : Bool
deriving DecidableEq

/-- A row of the `messages` table.  `theme_id` keeps the raw submitted value:
the INSERT binds it unchecked and SQLite stores it as given. -/
structure Message where
  id : Nat
  sender_name : Option String
  radio_name : String
  school_class : Option String
  theme_id : Option String
  content : String
  share_name : Bool
  share_class : Bool
  share_theme : Bool
  ip_address : Option String
  created_at : Nat
  is_read : Bool
deriving DecidableEq

/-- A row of the `access_token` table. -/
structure AccessToken where
  id : Nat
  token : String
  created_at : Nat
  is_active : Bool
deriving DecidableEq

/-- The SQLite database state, together with the next AUTOINCREMENT ids. -/
structure Db where
  themes : List Theme
  messages : List Message
  access_token : List AccessToken
  nextThemeId : Nat
  nextMessageId : Nat
deriving DecidableEq

/-- SQLite numeric affinity for the `WHERE id = ?` comparisons: a path
parameter (a string) matches an INTEGER id exactly when it reads as that
integer; a non-numeric string compares as TEXT and matches no INTEGER. -/
def idMatches (id : String) (rowid : Nat) : Bool :=
  strToNat? id == some rowid

/-- GET /api/teacher/get-current-token :
`SELECT * FROM access_token WHERE is_active = 1 LIMIT 1`. -/
def getCurrentToken (db : Db) : Option String :=
  (db.access_token.find? (fun r => r.is_active)).map (fun r => r.token)

/-- POST /api/teacher/generate-url : `DELETE FROM access_token` then
`INSERT INTO access_token (token, is_active) VALUES (?, 1)` with a fresh
UUID; responds with the token (embedded in the staff URL). -/
def generateUrl (db : Db) (token : String) (newId now : Nat) : Db × String :=
  ({ db with access_token := [{ id := newId, token := token, created_at := now, is_active := true }] },
   token)

/-- The lookup of GET /api/verify-token/:token :
`SELECT * FROM access_token WHERE token = ? AND is_active = 1`. -/
def findToken (db : Db) (t : String) : Option AccessToken :=
  db.access_token.find? (fun r => r.token == t && r.is_active)

/-- The verify handler on the query outcome: a storage failure is a 500,
no row is a 401 with valid=false, a row is a 200 with valid=true. -/
def verifyTokenWith : Except Unit (Option AccessToken) → VerifyResult
  | Except.error _ => VerifyResult.storageError
  | Except.ok none => VerifyResult.invalid
  | Except.ok (some _) => VerifyResult.valid

/-- GET /api/verify-token/:token on a non-failing execution. -/
def verifyToken (db : Db) (t : String) : VerifyResult :=
  verifyTokenWith (Except.ok (findToken db t))

/-- Sort order of the theme listings: `ORDER BY created_at DESC`. -/
def themeDesc (a b : Theme) : Prop := b.created_at ≤ a.created_at

instance : DecidableRel themeDesc := fun a b => Nat.decLe b.created_at a.created_at

instance : IsTotal Theme themeDesc :=
  ⟨fun a b => Nat.le_total b.created_at a.created_at⟩

instance : IsTrans Theme themeDesc :=
  ⟨fun _ _ _ hab hbc => Nat.le_trans hbc hab⟩

/-- GET /api/staff/themes :
`SELECT * FROM themes WHERE is_active = 1 ORDER BY created_at DESC`. -/
def staffThemes (db : Db) : List Theme :=
  (db.themes.filter (fun t => t.is_active)).insertionSort themeDesc

/-- The date-window test of the student listing, on the lower bound:
`start_date IS NULL OR start_date <= today`. -/
def startOk (d : Option String) (today : String) : Bool :=
  match d with
  | none => true
  | some s => strLe s today

/-- The date-window test on the upper bound:
`end_date IS NULL OR end_date >= today`. -/
def endOk (d : Option String) (today : String) : Bool :=
  match d with
  | none => true
  | some s => strLe today s

/-- GET /api/student/themes, with `today` the server current date as the
string `new Date().toISOString().split(T)[0]` (UTC, YYYY-MM-DD). -/
def studentThemes (db : Db) (today : String) : List Theme :=
  (db.themes.filter (fun t =>
      t.is_active && startOk t.start_date today && endOk t.end_date today)).insertionSort themeDesc

/-- The row bound by the INSERT of POST /api/staff/themes, with falsy dates
normalised to NULL (`start_date || null`, `end_date || null`). -/
def newTheme (b : ThemeBody) (now newId : Nat) : Theme :=
  { id := newId
    title := b.title.getD Jval.jnull
    description := b.description
    start_date := if strTruthy b.start_date then b.start_date else none
    end_date := if strTruthy b.end_date then b.end_date else none
    created_at := now
    is_active := true }

/-- POST /api/staff/themes : rejects a falsy title with a 400
(`if (!title)`), otherwise inserts the theme. -/
def createTheme (db : Db) (b : ThemeBody) (now : Nat) : Db × ThemeCreateResult Nat :=
  if jsTruthy b.title = false then (db, ThemeCreateResult.missingTitle)
  else
    ({ db with
        themes := db.themes ++ [newTheme b now db.nextThemeId]
        nextThemeId := db.nextThemeId + 1 },
     ThemeCreateResult.created db.nextThemeId)

/-- DELETE /api/staff/themes/:id :
`UPDATE themes SET is_active = 0 WHERE id = ?` and an unconditional
`\x7bsuccess: true\x7d` — no id validation, no existence check. -/
def deactivateTheme (db : Db) (id : String) : Db × DeactivateResult :=
  ({ db with themes := db.themes.map (fun t =>
        if idMatches id t.id then { t with is_active := false } else t) },
   DeactivateResult.success)

/-- The per-row effect of `UPDATE messages SET is_read = 1 WHERE id = ?`. -/
def setRead (id : String) (m : Message) : Message :=
  if idMatches id m.id then { m with is_read := true } else m

/-- PUT /api/staff/messages/:id/read :
`UPDATE messages SET is_read = 1 WHERE id = ?` and an unconditional
success — no id validation, no existence check. -/
def markRead (db : Db) (id : String) : Db × MarkReadResult :=
  ({ db with messages := db.messages.map (setRead id) }, MarkReadResult.success)

/-- The row bound by the INSERT of POST /api/student/messages :
`sender_name || null`, the derived class string, the raw theme_id and the
truthiness-coerced share flags. -/
def newMessage (b : SubmitBody) (ip : Option String) (now newId : Nat) : Message :=
  { id := newId
    sender_name := if strTruthy b.sender_name then b.sender_name else none
    radio_name := b.radio_name.getD ""
    school_class := fullClassOf b
    theme_id := b.theme_id
    content := b.content.getD ""
    share_name := jsTruthy b.share_name
    share_class := jsTruthy b.share_class
    share_theme := jsTruthy b.share_theme
    ip_address := ip
    created_at := now
    is_read := false }

/-- POST /api/student/messages : 400 when radio_name or content is falsy
(`if (!radio_name || !content)`), otherwise inserts the row. -/
def submitMessage (db : Db) (b : SubmitBody) (ip : Option String) (now : Nat) :
    Db × SubmitResult Nat :=
  if !strTruthy b.radio_name || !strTruthy b.content then
    (db, SubmitResult.missingRequired)
  else
    ({ db with
        messages := db.messages ++ [newMessage b ip now db.nextMessageId]
        nextMessageId := db.nextMessageId + 1 },
     SubmitResult.created db.nextMessageId)

end Sqlite

namespace Mongo

/-- A Theme document.  Identifiers are ObjectId hex strings; the Date fields
are numeric timestamps (milliseconds). -/
structure Theme where
  id : String
  title : Jval
  description : Option String
  start_date : Option Nat
  end_date : Option Nat
  created_at : Nat
  is_active : Bool
deriving DecidableEq

/-- A Message document. -/
structure Message where
  id : String
  sender_name : Option String
  radio_name : String
  school_class : Option String
  theme_id : Option String
  content : String
  share_name : Bool
  share_class : Bool
  share_theme : Bool
  ip_address : Option String
  created_at : Nat
  is_read : Bool
deriving DecidableEq

/-- An AccessToken document. -/
structure AccessToken where
  id : String
  token : String
  created_at : Nat
  is_active : Bool
deriving DecidableEq

/-- The MongoDB state. -/
structure Db where
  themes : List Theme
  messages : List Message
  tokens : List AccessToken
deriving DecidableEq

/-- Sort order `.sort(\x7bcreated_at: -1\x7d)` on tokens. -/
def tokenDesc (a b : AccessToken) : Prop := b.created_at ≤ a.created_at

instance : DecidableRel tokenDesc := fun a b => Nat.decLe b.created_at a.created_at

instance : IsTotal AccessToken tokenDesc :=
  ⟨fun a b => Nat.le_total b.created_at a.created_at⟩

instance : IsTrans AccessToken tokenDesc :=
  ⟨fun _ _ _ hab hbc => Nat.le_trans hbc hab⟩

/-- GET /api/teacher/get-current-token :
`AccessToken.findOne(\x7bis_active: true\x7d).sort(\x7bcreated_at: -1\x7d)`. -/
def getCurrentToken (db : Db) : Option String :=
  (((db.tokens.filter (fun r => r.is_active)).insertionSort tokenDesc).head?).map
    (fun r => r.token)

/-- POST /api/teacher/generate-url : `AccessToken.deleteMany(\x7b\x7d)` then
`AccessToken.create(\x7btoken, is_active: true\x7d)`. -/
def generateUrl (db : Db) (token : String) (newId : String) (now : Nat) : Db × String :=
  ({ db with tokens := [{ id := newId, token := token, created_at := now, is_active := true }] },
   token)

/-- The lookup of GET /api/verify-token/:token :
`AccessToken.findOne(\x7btoken, is_active: true\x7d)`. -/
def findToken (db : Db) (t : String) : Option AccessToken :=
  db.tokens.find? (fun r => r.token == t && r.is_active)

/-- The verify handler on the query outcome (catch block = 500). -/
def verifyTokenWith : Except Unit (Option AccessToken) → VerifyResult
  | Except.error _ => VerifyResult.storageError
  | Except.ok none => VerifyResult.invalid
  | Except.ok (some _) => VerifyResult.valid

/-- GET /api/verify-token/:token on a non-failing execution. -/
def verifyToken (db : Db) (t : String) : VerifyResult :=
  verifyTokenWith (Except.ok (findToken db t))

/-- Sort order `.sort(\x7bcreated_at: -1\x7d)` on themes. -/
def themeDesc (a b : Theme) : Prop := b.created_at ≤ a.created_at

instance : DecidableRel themeDesc := fun a b => Nat.decLe b.created_at a.created_at

instance : IsTotal Theme themeDesc :=
  ⟨fun a b => Nat.le_total b.created_at a.created_at⟩

instance : IsTrans Theme themeDesc :=
  ⟨fun _ _ _ hab hbc => Nat.le_trans hbc hab⟩

/-- GET /api/staff/themes :
`Theme.find(\x7bis_active: true\x7d).sort(\x7bcreated_at: -1\x7d)`. -/
def staffThemes (db : Db) : List Theme :=
  (db.themes.filter (fun t => t.is_active)).insertionSort themeDesc

/-- The lower-bound test of the student listing:
`$or: [\x7bstart_date: null\x7d, \x7bstart_date: \x7b$lte: today\x7d\x7d]`
with `today = new Date()`, a full timestamp. -/
def startOk (d : Option Nat) (now : Nat) : Bool :=
  match d with
  | none => true
  | some s => s ≤ now

/-- The upper-bound test:
`$or: [\x7bend_date: null\x7d, \x7bend_date: \x7b$gte: today\x7d\x7d]`. -/
def endOk (d : Option Nat) (now : Nat) : Bool :=
  match d with
  | none => true
  | some e => now ≤ e

/-- GET /api/student/themes, with `now` the current instant in
milliseconds (`new Date()` — note: NOT truncated to a date). -/
def studentThemes (db : Db) (now : Nat) : List Theme :=
  (db.themes.filter (fun t =>
      t.is_active && startOk t.start_date now && endOk t.end_date now)).insertionSort themeDesc

/-- The mongoose Date cast of one optional request field: a falsy value is
normalised to null first (`start_date || null`); a truthy string is cast by
the runtime (`castDate`), an uncastable one raises (caught as a 500). -/
def castField (castDate : String → Option Nat) (f : Option String) :
    Except Unit (Option Nat) :=
  if strTruthy f then
    match castDate (f.getD "") with
    | some n => Except.ok (some n)
    | none => Except.error ()
  else Except.ok none

/-- The document created by POST /api/staff/themes once the dates have been
cast, with is_active defaulting to true. -/
def newTheme (b : ThemeBody) (sd ed : Option Nat) (now : Nat) (newId : String) : Theme :=
  { id := newId
    title := b.title.getD Jval.jnull
    description := b.description
    start_date := sd
    end_date := ed
    created_at := now
    is_active := true }

/-- POST /api/staff/themes : rejects a falsy title with a 400, otherwise
creates the document. -/
def createTheme (db : Db) (b : ThemeBody) (castDate : String → Option Nat)
    (now : Nat) (newId : String) : Db × ThemeCreateResult String :=
  if jsTruthy b.title = false then (db, ThemeCreateResult.missingTitle)
  else
    match castField castDate b.start_date, castField castDate b.end_date with
    | Except.ok sd, Except.ok ed =>
      ({ db with themes := db.themes ++ [newTheme b sd ed now newId] },
       ThemeCreateResult.created newId)
    | _, _ => (db, ThemeCreateResult.castError)

/-- DELETE /api/staff/themes/:id : 400 when the id is not a well-formed
ObjectId, otherwise `Theme.findByIdAndUpdate(id, \x7bis_active: false\x7d)`,
404 when it matched no document. -/
def deactivateTheme (db : Db) (id : String) : Db × DeactivateResult :=
  if isValidObjectId id = false then (db, DeactivateResult.invalidId)
  else if db.themes.any (fun t => t.id == id) then
    ({ db with themes := db.themes.map (fun t =>
          if t.id == id then { t with is_active := false } else t) },
     DeactivateResult.success)
  else (db, DeactivateResult.notFound)

/-- The per-document effect of `findByIdAndUpdate(id, \x7bis_read: true\x7d)`. -/
def setRead (id : String) (m : Message) : Message :=
  if m.id == id then { m with is_read := true } else m

/-- PUT /api/staff/messages/:id/read : 400 when the id is not a well-formed
ObjectId, otherwise `Message.findByIdAndUpdate(id, \x7bis_read: true\x7d)`
with the result ignored — success whether or not a document matched. -/
def markRead (db : Db) (id : String) : Db × MarkReadResult :=
  if isValidObjectId id = false then (db, MarkReadResult.invalidId)
  else
    ({ db with messages := db.messages.map (setRead id) }, MarkReadResult.success)

/-- The document created by POST /api/student/messages; a falsy theme_id
leaves the reference null. -/
def newMessage (b : SubmitBody) (ip : Option String) (now : Nat) (newId : String) : Message :=
  { id := newId
    sender_name := if strTruthy b.sender_name then b.sender_name else none
    radio_name := b.radio_name.getD ""
    school_class := fullClassOf b
    theme_id := if strTruthy b.theme_id then b.theme_id else none
    content := b.content.getD ""
    share_name := jsTruthy b.share_name
    share_class := jsTruthy b.share_class
    share_theme := jsTruthy b.share_theme
    ip_address := ip
    created_at := now
    is_read := false }

/-- POST /api/student/messages : 400 when radio_name or content is falsy;
400 when a truthy theme_id is not a well-formed ObjectId (existence against
Theme is never checked); otherwise creates the document. -/
def submitMessage (db : Db) (b : SubmitBody) (ip : Option String) (now : Nat)
    (newId : String) : Db × SubmitResult String :=
  if !strTruthy b.radio_name || !strTruthy b.content then
    (db, SubmitResult.missingRequired)
  else if strTruthy b.theme_id && !isValidObjectId (b.theme_id.getD "") then
    (db, SubmitResult.invalidThemeId)
  else
    ({ db with messages := db.messages ++ [newMessage b ip now newId] },
     SubmitResult.created newId)

end Mongo

/-! ### Concrete states used by witnesses and counterexamples -/

/-- An empty SQLite database, fresh AUTOINCREMENT counters. -/
def sqlEmpty : Sqlite.Db :=
  { themes := [], messages := [], access_token := [], nextThemeId := 1, nextMessageId := 1 }

/-- An empty MongoDB database. -/
def mongoEmpty : Mongo.Db := { themes := [], messages := [], tokens := [] }

/-- A previously issued token row, SQLite side. -/
def tokRow0 : Sqlite.AccessToken :=
  { id := 1, token := "tok-old", created_at := 0, is_active := true }

/-- A previously issued token document, Mongo side. -/
def mtokRow0 : Mongo.AccessToken :=
  { id := "aaaaaaaaaaaaaaaaaaaaaaaa", token := "tok-old", created_at := 0, is_active := true }

/-- A SQLite state holding one previously issued token. -/
def sqlDb0 : Sqlite.Db :=
  { themes := [], messages := [], access_token := [tokRow0], nextThemeId := 1, nextMessageId := 1 }

/-- A MongoDB state holding one previously issued token. -/
def mongoDb0 : Mongo.Db := { themes := [], messages := [], tokens := [mtokRow0] }

/-! ### Helper lemmas -/

/-- The result of `find?` is some row exactly when some member satisfies the
predicate. -/
theorem findSomeIff {α : Type} (p : α → Bool) (l : List α) :
    (l.find? p).isSome = true ↔ ∃ x ∈ l, p x = true := by
  induction l with
  | nil => simp [List.find?]
  | cons a l ih =>
    by_cases h : p a = true
    · simp [List.find?, h]
    · simp only [List.find?, Bool.not_eq_true] at h ⊢
      rw [h]
      simp only [List.mem_cons]
      constructor
      · intro hs
        obtain ⟨x, hx, hpx⟩ := ih.mp hs
        exact ⟨x, Or.inr hx, hpx⟩
      · rintro ⟨x, hx | hx, hpx⟩
        · rw [hx] at hpx; rw [h] at hpx; cases hpx
        · exact ih.mpr ⟨x, hx, hpx⟩

/-! ### C1 -/

/-- C1: after a successful issue (POST /api/teacher/generate-url) — in either
backend — exactly one AccessToken row exists, it is active and carries the
freshly generated token, every previously stored row (other than one carrying
the same token string) is gone, the response returns that token, and a
subsequent getCurrent (GET /api/teacher/get-current-token) returns it. -/
theorem C1_token_rotation (sdb : Sqlite.Db) (mdb : Mongo.Db) (tok : String)
    (nid now : Nat) (mid : String) (mnow : Nat) :
    (∃ r : Sqlite.AccessToken, (Sqlite.generateUrl sdb tok nid now).1.access_token = [r]
        ∧ r.is_active = true ∧ r.token = tok)
    ∧ (Sqlite.generateUrl sdb tok nid now).2 = tok
    ∧ Sqlite.getCurrentToken (Sqlite.generateUrl sdb tok nid now).1 = some tok
    ∧ (∀ r ∈ sdb.access_token, r.token ≠ tok →
        r ∉ (Sqlite.generateUrl sdb tok nid now).1.access_token)
    ∧ (∃ r : Mongo.AccessToken, (Mongo.generateUrl mdb tok mid mnow).1.tokens = [r]
        ∧ r.is_active = true ∧ r.token = tok)
    ∧ (Mongo.generateUrl mdb tok mid mnow).2 = tok
    ∧ Mongo.getCurrentToken (Mongo.generateUrl mdb tok mid mnow).1 = some tok
    ∧ (∀ r ∈ mdb.tokens, r.token ≠ tok →
        r ∉ (Mongo.generateUrl mdb tok mid mnow).1.tokens) := by
  refine ⟨⟨_, rfl, rfl, rfl⟩, rfl, rfl, ?_, ⟨_, rfl, rfl, rfl⟩, rfl, rfl, ?_⟩
  · intro r _ hne hmem
    have : r = { id := nid, token := tok, created_at := now, is_active := true } := by
      simpa [Sqlite.generateUrl] using hmem
    exact hne (by rw [this])
  · intro r _ hne hmem
    have : r = { id := mid, token := tok, created_at := mnow, is_active := true } := by
      simpa [Mongo.generateUrl] using hmem
    exact hne (by rw [this])

/-- Witness for C1 at a concrete state holding an old token. -/
theorem C1_witness :
    Sqlite.getCurrentToken (Sqlite.generateUrl sqlDb0 "tok-new" 2 5).1 = some "tok-new"
    ∧ Mongo.getCurrentToken (Mongo.generateUrl mongoDb0 "tok-new" "bbbbbbbbbbbbbbbbbbbbbbbb" 5).1
        = some "tok-new"
    ∧ tokRow0 ∉ (Sqlite.generateUrl sqlDb0 "tok-new" 2 5).1.access_token := by
  have h := C1_token_rotation sqlDb0 mongoDb0 "tok-new" 2 5 "bbbbbbbbbbbbbbbbbbbbbbbb" 5
  exact ⟨h.2.2.1, h.2.2.2.2.2.2.1, h.2.2.2.1 tokRow0 (by decide) (by decide)⟩

/-! ### C2 -/

/-- Valid responses of the verify handler on a completed query, SQLite side. -/
theorem verifyWith_ok_sql (o : Option Sqlite.AccessToken) :
    (Sqlite.verifyTokenWith (Except.ok o) = VerifyResult.valid ↔ o.isSome = true)
    ∧ Sqlite.verifyTokenWith (Except.ok o) ≠ VerifyResult.storageError := by
  cases o <;> simp [Sqlite.verifyTokenWith]

/-- Valid responses of the verify handler on a completed query, Mongo side. -/
theorem verifyWith_ok_mongo (o : Option Mongo.AccessToken) :
    (Mongo.verifyTokenWith (Except.ok o) = VerifyResult.valid ↔ o.isSome = true)
    ∧ Mongo.verifyTokenWith (Except.ok o) ≠ VerifyResult.storageError := by
  cases o <;> simp [Mongo.verifyTokenWith]

/-- C2: in both backends, verify(t) answers valid=true exactly when an active
row with that token is stored; any other t gets the 401 valid=false answer
rather than an error; the 500 error answer arises exactly from a
storage-layer failure. -/
theorem C2_verify_token (sdb : Sqlite.Db) (mdb : Mongo.Db) (t : String) :
    (Sqlite.verifyToken sdb t = VerifyResult.valid ↔
        ∃ r ∈ sdb.access_token, r.token = t ∧ r.is_active = true)
    ∧ (Sqlite.verifyToken sdb t = VerifyResult.invalid ↔
        ¬ ∃ r ∈ sdb.access_token, r.token = t ∧ r.is_active = true)
    ∧ Sqlite.verifyToken sdb t ≠ VerifyResult.storageError
    ∧ (∀ q, Sqlite.verifyTokenWith q = VerifyResult.storageError ↔ q = Except.error ())
    ∧ (Mongo.verifyToken mdb t = VerifyResult.valid ↔
        ∃ r ∈ mdb.tokens, r.token = t ∧ r.is_active = true)
    ∧ (Mongo.verifyToken mdb t = VerifyResult.invalid ↔
        ¬ ∃ r ∈ mdb.tokens, r.token = t ∧ r.is_active = true)
    ∧ Mongo.verifyToken mdb t ≠ VerifyResult.storageError
    ∧ (∀ q, Mongo.verifyTokenWith q = VerifyResult.storageError ↔ q = Except.error ()) := by
  have hs : (Sqlite.verifyToken sdb t = VerifyResult.valid ↔
      ∃ r ∈ sdb.access_token, r.token = t ∧ r.is_active = true) := by
    rw [Sqlite.verifyToken, (verifyWith_ok_sql _).1, Sqlite.findToken, findSomeIff]
    simp [Bool.and_eq_true, beq_iff_eq]
  have hm : (Mongo.verifyToken mdb t = VerifyResult.valid ↔
      ∃ r ∈ mdb.tokens, r.token = t ∧ r.is_active = true) := by
    rw [Mongo.verifyToken, (verifyWith_ok_mongo _).1, Mongo.findToken, findSomeIff]
    simp [Bool.and_eq_true, beq_iff_eq]
  have hserr : Sqlite.verifyToken sdb t ≠ VerifyResult.storageError :=
    (verifyWith_ok_sql _).2
  have hmerr : Mongo.verifyToken mdb t ≠ VerifyResult.storageError :=
    (verifyWith_ok_mongo _).2
  refine ⟨hs, ?_, hserr, ?_, hm, ?_, hmerr, ?_⟩
  · rw [← hs]
    cases h : Sqlite.verifyToken sdb t <;> simp [h] at hserr ⊢
  · intro q
    match q with
    | Except.error () => simp [Sqlite.verifyTokenWith]
    | Except.ok o => cases o <;> simp [Sqlite.verifyTokenWith]
  · rw [← hm]
    cases h : Mongo.verifyToken mdb t <;> simp [h] at hmerr ⊢
  · intro q
    match q with
    | Except.error () => simp [Mongo.verifyTokenWith]
    | Except.ok o => cases o <;> simp [Mongo.verifyTokenWith]

/-- Witness for C2: the stored token verifies, a fresh string does not. -/
theorem C2_witness :
    Sqlite.verifyToken sqlDb0 "tok-old" = VerifyResult.valid
    ∧ Mongo.verifyToken mongoDb0 "nope" = VerifyResult.invalid := by
  have h := C2_verify_token sqlDb0 mongoDb0 "tok-old"
  have h2 := C2_verify_token sqlDb0 mongoDb0 "nope"
  refine ⟨h.1.mpr ⟨tokRow0, by decide, rfl, rfl⟩, ?_⟩
  refine (h2.2.2.2.2.2.1).mpr ?_
  rintro ⟨r, hr, hrt, _⟩
  have hre : r = mtokRow0 := by simpa [mongoDb0] using hr
  rw [hre] at hrt
  exact absurd hrt (by decide)

/-! ### C3 -/

/-- The SQLite verify result depends only on the stored (token, is_active)
pairs. -/
theorem verify_sql_any (db : Sqlite.Db) (t : String) :
    Sqlite.verifyToken db t =
      (if (db.access_token.map (fun r => (r.token, r.is_active))).any
          (fun q => q.1 == t && q.2) = true then VerifyResult.valid
       else VerifyResult.invalid) := by
  rw [Sqlite.verifyToken, Sqlite.findToken]
  cases hf : db.access_token.find? (fun r => r.token == t && r.is_active) with
  | none =>
    have hnone := List.find?_eq_none.mp hf
    have hany : (db.access_token.map (fun r => (r.token, r.is_active))).any
        (fun q => q.1 == t && q.2) = false := by
      rw [List.any_eq_false]
      rintro q hq
      obtain ⟨r, hr, rfl⟩ := List.mem_map.mp hq
      exact hnone r hr
    rw [hany]
    simp [Sqlite.verifyTokenWith]
  | some r =>
    have hp := List.find?_some hf
    have hmem : r ∈ db.access_token := List.mem_of_find?_eq_some hf
    have hany : (db.access_token.map (fun r => (r.token, r.is_active))).any
        (fun q => q.1 == t && q.2) = true := by
      rw [List.any_eq_true]
      exact ⟨(r.token, r.is_active), List.mem_map_of_mem _ hmem, hp⟩
    rw [hany]
    simp [Sqlite.verifyTokenWith]

/-- The Mongo verify result depends only on the stored (token, is_active)
pairs. -/
theorem verify_mongo_any (db : Mongo.Db) (t : String) :
    Mongo.verifyToken db t =
      (if (db.tokens.map (fun r => (r.token, r.is_active))).any
          (fun q => q.1 == t && q.2) = true then VerifyResult.valid
       else VerifyResult.invalid) := by
  rw [Mongo.verifyToken, Mongo.findToken]
  cases hf : db.tokens.find? (fun r => r.token == t && r.is_active) with
  | none =>
    have hnone := List.find?_eq_none.mp hf
    have hany : (db.tokens.map (fun r => (r.token, r.is_active))).any
        (fun q => q.1 == t && q.2) = false := by
      rw [List.any_eq_false]
      rintro q hq
      obtain ⟨r, hr, rfl⟩ := List.mem_map.mp hq
      exact hnone r hr
    rw [hany]
    simp [Mongo.verifyTokenWith]
  | some r =>
    have hp := List.find?_some hf
    have hmem : r ∈ db.tokens := List.mem_of_find?_eq_some hf
    have hany : (db.tokens.map (fun r => (r.token, r.is_active))).any
        (fun q => q.1 == t && q.2) = true := by
      rw [List.any_eq_true]
      exact ⟨(r.token, r.is_active), List.mem_map_of_mem _ hmem, hp⟩
    rw [hany]
    simp [Mongo.verifyTokenWith]

/-- C3 counterexample: on identical (empty) stored state, the same request
DELETE /api/staff/themes/xyz is answered 200 success by the SQLite service
and 400 invalid-id by the MongoDB service, so the two backends do not
produce equivalent observable results on every endpoint. -/
theorem C3_counterexample :
    (Sqlite.deactivateTheme sqlEmpty "xyz").2 = DeactivateResult.success
    ∧ (Mongo.deactivateTheme mongoEmpty "xyz").2 = DeactivateResult.invalidId
    ∧ deactStatus (Sqlite.deactivateTheme sqlEmpty "xyz").2 = 200
    ∧ deactStatus (Mongo.deactivateTheme mongoEmpty "xyz").2 = 400 := by
  decide

/-- C3 amended: the token endpoints are equivalent across the two backends
given equivalent stored token state (same token strings and active flags),
but the id-taking endpoints are not: on a malformed id the MongoDB service
answers 400 where the SQLite service answers 200 success, for theme
deactivation and for mark-read alike, whatever the stored state. -/
theorem C3_backend_equivalence (sdb : Sqlite.Db) (mdb : Mongo.Db)
    (hcorr : sdb.access_token.map (fun r => (r.token, r.is_active))
        = mdb.tokens.map (fun r => (r.token, r.is_active))) :
    (∀ t, Sqlite.verifyToken sdb t = Mongo.verifyToken mdb t)
    ∧ (∀ tok nid now mid mnow,
        (Sqlite.generateUrl sdb tok nid now).2 = (Mongo.generateUrl mdb tok mid mnow).2
        ∧ Sqlite.getCurrentToken (Sqlite.generateUrl sdb tok nid now).1
            = Mongo.getCurrentToken (Mongo.generateUrl mdb tok mid mnow).1)
    ∧ (∀ id, isValidObjectId id = false →
        (Sqlite.deactivateTheme sdb id).2 = DeactivateResult.success
        ∧ (Mongo.deactivateTheme mdb id).2 = DeactivateResult.invalidId
        ∧ deactStatus (Sqlite.deactivateTheme sdb id).2 = 200
        ∧ deactStatus (Mongo.deactivateTheme mdb id).2 = 400)
    ∧ (∀ id, isValidObjectId id = false →
        (Sqlite.markRead sdb id).2 = MarkReadResult.success
        ∧ (Mongo.markRead mdb id).2 = MarkReadResult.invalidId) := by
  refine ⟨?_, ?_, ?_, ?_⟩
  · intro t
    rw [verify_sql_any, verify_mongo_any, hcorr]
  · intro tok nid now mid mnow
    exact ⟨rfl, rfl⟩
  · intro id hid
    refine ⟨rfl, ?_, rfl, ?_⟩
    · simp [Mongo.deactivateTheme, hid]
    · simp [Mongo.deactivateTheme, hid, deactStatus]
  · intro id hid
    exact ⟨rfl, by simp [Mongo.markRead, hid]⟩

/-- Witness for C3: equal token stores, equal verify answer; and the
divergent deactivate answers at the same state pair. -/
theorem C3_witness :
    Sqlite.verifyToken sqlDb0 "tok-old" = Mongo.verifyToken mongoDb0 "tok-old"
    ∧ (Sqlite.deactivateTheme sqlDb0 "abc").2 = DeactivateResult.success
    ∧ (Mongo.deactivateTheme mongoDb0 "abc").2 = DeactivateResult.invalidId := by
  have h := C3_backend_equivalence sqlDb0 mongoDb0 rfl
  exact ⟨h.1 "tok-old", (h.2.2.1 "abc" (by decide)).1, (h.2.2.1 "abc" (by decide)).2.1⟩

/-! ### C4 -/

/-- Membership in a conditional-update map factors through the source list. -/
theorem mem_update_map {α : Type} (p : α → Bool) (f : α → α) (l : List α) (x : α)
    (hx : x ∈ l.map (fun a => if p a then f a else a)) :
    ∃ a ∈ l, x = (if p a then f a else a) := by
  obtain ⟨a, ha, hfa⟩ := List.mem_map.mp hx
  exact ⟨a, ha, hfa.symm⟩

/-- A theme document carrying a known 24-hex-character id. -/
def theme4 : Mongo.Theme :=
  { id := "cccccccccccccccccccccccc", title := Jval.jstr "t4", description := none,
    start_date := none, end_date := none, created_at := 3, is_active := true }

/-- A MongoDB state holding that one theme. -/
def mongoDb4 : Mongo.Db := { themes := [theme4], messages := [], tokens := [] }

/-- C4 counterexample: the claim asserts deactivate(id) fails with a 400 for
a malformed id, but the SQLite service answers 200 success on the malformed
id zzz (which neither backend considers well-formed). -/
theorem C4_counterexample :
    (Sqlite.deactivateTheme sqlEmpty "zzz").2 = DeactivateResult.success
    ∧ isValidObjectId "zzz" = false
    ∧ strToNat? "zzz" = none
    ∧ DeactivateResult.success ≠ DeactivateResult.invalidId
    ∧ DeactivateResult.success ≠ DeactivateResult.notFound := by
  decide

/-- C4 amended: in the MongoDB service, deactivate(id) behaves exactly as
claimed (400 on a malformed id, 404 when no theme has that id, otherwise a
soft delete: is_active becomes false, the row count is preserved and
messages are untouched).  The SQLite service instead performs no validation
and no existence check: it answers success unconditionally, soft-deleting
the row with the matching numeric id when one exists; rows and messages are
never removed in either backend. -/
theorem C4_deactivate (mdb : Mongo.Db) (sdb : Sqlite.Db) (id : String) :
    (isValidObjectId id = false →
        (Mongo.deactivateTheme mdb id).1 = mdb
        ∧ (Mongo.deactivateTheme mdb id).2 = DeactivateResult.invalidId)
    ∧ (isValidObjectId id = true → (¬ ∃ t ∈ mdb.themes, t.id = id) →
        (Mongo.deactivateTheme mdb id).1 = mdb
        ∧ (Mongo.deactivateTheme mdb id).2 = DeactivateResult.notFound)
    ∧ (isValidObjectId id = true → (∃ t ∈ mdb.themes, t.id = id) →
        (Mongo.deactivateTheme mdb id).2 = DeactivateResult.success
        ∧ (∀ t ∈ (Mongo.deactivateTheme mdb id).1.themes, t.id = id → t.is_active = false)
        ∧ (Mongo.deactivateTheme mdb id).1.themes.length = mdb.themes.length
        ∧ (∀ t ∈ (Mongo.deactivateTheme mdb id).1.themes, t.id ≠ id → t ∈ mdb.themes))
    ∧ (Mongo.deactivateTheme mdb id).1.messages = mdb.messages
    ∧ (Sqlite.deactivateTheme sdb id).2 = DeactivateResult.success
    ∧ (Sqlite.deactivateTheme sdb id).1.themes.length = sdb.themes.length
    ∧ (Sqlite.deactivateTheme sdb id).1.messages = sdb.messages
    ∧ (∀ t ∈ (Sqlite.deactivateTheme sdb id).1.themes,
        Sqlite.idMatches id t.id = true → t.is_active = false)
    ∧ (∀ t ∈ (Sqlite.deactivateTheme sdb id).1.themes,
        Sqlite.idMatches id t.id = false → t ∈ sdb.themes) := by
  refine ⟨?_, ?_, ?_, ?_, rfl, ?_, rfl, ?_, ?_⟩
  · intro hid
    constructor <;> simp [Mongo.deactivateTheme, hid]
  · intro hid hnone
    have hany : mdb.themes.any (fun t => t.id == id) = false := by
      rw [List.any_eq_false]
      intro t ht
      simp only [beq_iff_eq]
      exact fun he => hnone ⟨t, ht, he⟩
    constructor <;> simp [Mongo.deactivateTheme, hid, hany]
  · intro hid hex
    obtain ⟨t0, ht0, hid0⟩ := hex
    have hany : mdb.themes.any (fun t => t.id == id) = true :=
      List.any_eq_true.mpr ⟨t0, ht0, by simpa [beq_iff_eq] using hid0⟩
    have hthemes : (Mongo.deactivateTheme mdb id).1.themes =
        mdb.themes.map (fun t => if t.id == id then { t with is_active := false } else t) := by
      simp [Mongo.deactivateTheme, hid, hany]
    refine ⟨by simp [Mongo.deactivateTheme, hid, hany], ?_, ?_, ?_⟩
    · intro t ht hteq
      rw [hthemes] at ht
      obtain ⟨a, _, hae⟩ := mem_update_map _ _ _ _ ht
      by_cases hpa : (a.id == id) = true
      · rw [hae, if_pos hpa]
      · exfalso
        rw [hae, if_neg hpa] at hteq
        exact absurd (by simpa [beq_iff_eq] using hteq) (by simpa [beq_iff_eq] using hpa)
    · rw [hthemes, List.length_map]
    · intro t ht hne
      rw [hthemes] at ht
      obtain ⟨a, ha, hae⟩ := mem_update_map _ _ _ _ ht
      by_cases hpa : (a.id == id) = true
      · exfalso
        rw [hae, if_pos hpa] at hne
        exact hne (by simpa [beq_iff_eq] using hpa)
      · rw [hae, if_neg hpa]
        exact ha
  · unfold Mongo.deactivateTheme
    split
    · rfl
    · split <;> rfl
  · simp [Sqlite.deactivateTheme, List.length_map]
  · intro t ht hm
    obtain ⟨a, _, hae⟩ := mem_update_map _ _ _ _ ht
    by_cases hpa : Sqlite.idMatches id a.id = true
    · rw [hae, if_pos hpa]
    · exfalso
      rw [hae, if_neg hpa] at hm
      exact absurd hm hpa
  · intro t ht hm
    obtain ⟨a, ha, hae⟩ := mem_update_map _ _ _ _ ht
    by_cases hpa : Sqlite.idMatches id a.id = true
    · exfalso
      rw [hae, if_pos hpa] at hm
      have hm2 : Sqlite.idMatches id a.id = false := hm
      rw [hpa] at hm2
      simp at hm2
    · rw [hae, if_neg hpa]
      exact ha

/-- Witness for C4 at concrete states: the three MongoDB outcomes and the
unconditional SQLite success. -/
theorem C4_witness :
    (Mongo.deactivateTheme mongoDb4 "cccccccccccccccccccccccc").2 = DeactivateResult.success
    ∧ (Mongo.deactivateTheme mongoDb4 "zz").2 = DeactivateResult.invalidId
    ∧ (Mongo.deactivateTheme mongoDb4 "dddddddddddddddddddddddd").2 = DeactivateResult.notFound
    ∧ (Sqlite.deactivateTheme sqlEmpty "7").2 = DeactivateResult.success := by
  have h1 := C4_deactivate mongoDb4 sqlEmpty "cccccccccccccccccccccccc"
  have h2 := C4_deactivate mongoDb4 sqlEmpty "zz"
  have h3 := C4_deactivate mongoDb4 sqlEmpty "dddddddddddddddddddddddd"
  have h4 := C4_deactivate mongoDb4 sqlEmpty "7"
  refine ⟨(h1.2.2.1 (by decide) ⟨theme4, by decide, by decide⟩).1,
    (h2.1 (by decide)).2, (h3.2.1 (by decide) (by decide)).2, h4.2.2.2.2.1⟩

/-! ### C5 -/

/-- Reduction of the SQLite submit route on accepted input. -/
theorem submit_ok_sql (db : Sqlite.Db) (b : SubmitBody) (ip : Option String) (now : Nat)
    (hr : strTruthy b.radio_name = true) (hc : strTruthy b.content = true) :
    Sqlite.submitMessage db b ip now =
      ({ db with
          messages := db.messages ++ [Sqlite.newMessage b ip now db.nextMessageId]
          nextMessageId := db.nextMessageId + 1 },
       SubmitResult.created db.nextMessageId) := by
  simp [Sqlite.submitMessage, hr, hc]

/-- Reduction of the Mongo submit route on accepted input. -/
theorem submit_ok_mongo (db : Mongo.Db) (b : SubmitBody) (ip : Option String) (now : Nat)
    (mid : String) (hr : strTruthy b.radio_name = true) (hc : strTruthy b.content = true)
    (ht : strTruthy b.theme_id = true → isValidObjectId (b.theme_id.getD "") = true) :
    Mongo.submitMessage db b ip now mid =
      ({ db with messages := db.messages ++ [Mongo.newMessage b ip now mid] },
       SubmitResult.created mid) := by
  have hcond2 : (strTruthy b.theme_id && !isValidObjectId (b.theme_id.getD "")) = false := by
    by_cases hti : strTruthy b.theme_id = true
    · simp [hti, ht hti]
    · simp only [Bool.not_eq_true] at hti
      simp [hti]
  simp [Mongo.submitMessage, hr, hc, hcond2]

/-- A submission body carrying a malformed theme reference. -/
def body5 : SubmitBody :=
  { sender_name := none, radio_name := some "Taro", school_year := none, school_class := none,
    theme_id := some "zz", content := some "hello",
    share_name := none, share_class := none, share_theme := none }

/-- A submission body missing its content. -/
def bodyMissing : SubmitBody :=
  { sender_name := none, radio_name := some "Taro", school_year := none, school_class := none,
    theme_id := none, content := none,
    share_name := none, share_class := none, share_theme := none }

/-- A submission body with a well-formed (but dangling) theme reference. -/
def body5ok : SubmitBody :=
  { sender_name := none, radio_name := some "Taro", school_year := none, school_class := none,
    theme_id := some "cccccccccccccccccccccccc", content := some "hello",
    share_name := none, share_class := none, share_theme := none }

/-- C5 counterexample: the claim asserts a supplied malformed theme_id fails
with a 400, but the SQLite service accepts the malformed theme_id zz and
creates the row. -/
theorem C5_counterexample :
    (Sqlite.submitMessage sqlEmpty body5 none 0).2 = SubmitResult.created 1
    ∧ (Sqlite.submitMessage sqlEmpty body5 none 0).1.messages.length = 1
    ∧ isValidObjectId "zz" = false
    ∧ strToNat? "zz" = none
    ∧ body5.theme_id = some "zz" := by
  decide

/-- C5 amended: missing radio_name or content is rejected with a 400 and no
row is created, in both backends.  Only the MongoDB service additionally
rejects a truthy malformed theme_id with a 400 and no row; when the
reference is well-formed it is stored without any existence check against
the stored themes (the state is arbitrary here).  The SQLite service
performs no theme_id validation at all and stores the submitted value
as-is. -/
theorem C5_submit_validation (sdb : Sqlite.Db) (mdb : Mongo.Db) (b : SubmitBody)
    (ip : Option String) (now : Nat) (mid : String) :
    (strTruthy b.radio_name = false ∨ strTruthy b.content = false →
        (Sqlite.submitMessage sdb b ip now).1 = sdb
        ∧ (Sqlite.submitMessage sdb b ip now).2 = SubmitResult.missingRequired
        ∧ (Mongo.submitMessage mdb b ip now mid).1 = mdb
        ∧ (Mongo.submitMessage mdb b ip now mid).2 = SubmitResult.missingRequired)
    ∧ (strTruthy b.radio_name = true → strTruthy b.content = true →
        strTruthy b.theme_id = true → isValidObjectId (b.theme_id.getD "") = false →
        (Mongo.submitMessage mdb b ip now mid).1 = mdb
        ∧ (Mongo.submitMessage mdb b ip now mid).2 = SubmitResult.invalidThemeId)
    ∧ (strTruthy b.radio_name = true → strTruthy b.content = true →
        (strTruthy b.theme_id = true → isValidObjectId (b.theme_id.getD "") = true) →
        (Mongo.submitMessage mdb b ip now mid).2 = SubmitResult.created mid
        ∧ ∃ m, (Mongo.submitMessage mdb b ip now mid).1.messages = mdb.messages ++ [m]
            ∧ m.theme_id = (if strTruthy b.theme_id then b.theme_id else none))
    ∧ (strTruthy b.radio_name = true → strTruthy b.content = true →
        (Sqlite.submitMessage sdb b ip now).2 = SubmitResult.created sdb.nextMessageId
        ∧ ∃ m, (Sqlite.submitMessage sdb b ip now).1.messages = sdb.messages ++ [m]
            ∧ m.theme_id = b.theme_id) := by
  refine ⟨?_, ?_, ?_, ?_⟩
  · intro h
    have hcond : (!strTruthy b.radio_name || !strTruthy b.content) = true := by
      rcases h with h | h <;> simp [h]
    refine ⟨?_, ?_, ?_, ?_⟩ <;> simp [Sqlite.submitMessage, Mongo.submitMessage, hcond]
  · intro hr hc hti hv
    have hcond1 : (!strTruthy b.radio_name || !strTruthy b.content) = false := by simp [hr, hc]
    have hcond2 : (strTruthy b.theme_id && !isValidObjectId (b.theme_id.getD "")) = true := by
      simp [hti, hv]
    constructor <;> simp [Mongo.submitMessage, hcond1, hcond2]
  · intro hr hc ht
    rw [submit_ok_mongo mdb b ip now mid hr hc ht]
    exact ⟨rfl, Mongo.newMessage b ip now mid, rfl, rfl⟩
  · intro hr hc
    rw [submit_ok_sql sdb b ip now hr hc]
    exact ⟨rfl, Sqlite.newMessage b ip now sdb.nextMessageId, rfl, rfl⟩

/-- Witness for C5: a dangling well-formed reference is accepted against an
empty theme store, a malformed one is rejected only by Mongo, and missing
content is rejected by SQLite. -/
theorem C5_witness :
    (Mongo.submitMessage mongoEmpty body5ok none 0 "eeeeeeeeeeeeeeeeeeeeeeee").2
        = SubmitResult.created "eeeeeeeeeeeeeeeeeeeeeeee"
    ∧ (Mongo.submitMessage mongoEmpty body5 none 0 "eeeeeeeeeeeeeeeeeeeeeeee").2
        = SubmitResult.invalidThemeId
    ∧ (Sqlite.submitMessage sqlEmpty bodyMissing none 0).2 = SubmitResult.missingRequired := by
  have h1 := C5_submit_validation sqlEmpty mongoEmpty body5ok none 0 "eeeeeeeeeeeeeeeeeeeeeeee"
  have h2 := C5_submit_validation sqlEmpty mongoEmpty body5 none 0 "eeeeeeeeeeeeeeeeeeeeeeee"
  have h3 := C5_submit_validation sqlEmpty mongoEmpty bodyMissing none 0 "eeeeeeeeeeeeeeeeeeeeeeee"
  exact ⟨(h1.2.2.1 (by decide) (by decide) (fun _ => by decide)).1,
    (h2.2.1 (by decide) (by decide) (by decide) (by decide)).2,
    (h3.1 (Or.inr (by decide))).2.1⟩

/-! ### C6 -/

/-- Millisecond-to-day truncation, the date-only reading of a timestamp that
the claim asserts for the student listing. -/
def dayOfMs (t : Nat) : Nat := t / 86400000

/-- A theme whose window opens one millisecond into day 0. -/
def theme6 : Mongo.Theme :=
  { id := "dddddddddddddddddddddddd", title := Jval.jstr "t6", description := none,
    start_date := some 1, end_date := none, created_at := 0, is_active := true }

/-- A MongoDB state holding that one theme. -/
def mongoDb6 : Mongo.Db := { themes := [theme6], messages := [], tokens := [] }

/-- C6 counterexample: the claim asserts the student listing compares at
date-only granularity, but the MongoDB service compares full timestamps: an
active theme whose start_date lies in the same day as the current instant
(day 0 for both) is excluded because its timestamp is one millisecond
later. -/
theorem C6_counterexample :
    Mongo.studentThemes mongoDb6 0 = []
    ∧ theme6.is_active = true
    ∧ theme6.start_date = some 1
    ∧ theme6.end_date = none
    ∧ dayOfMs 1 = dayOfMs 0 := by
  decide

/-- Window test at the lower bound, SQLite, in propositional form. -/
theorem sql_startOk_iff (d : Option String) (today : String) :
    Sqlite.startOk d today = true ↔ (d = none ∨ ∃ s, d = some s ∧ strLe s today = true) := by
  cases d <;> simp [Sqlite.startOk]

/-- Window test at the upper bound, SQLite, in propositional form. -/
theorem sql_endOk_iff (d : Option String) (today : String) :
    Sqlite.endOk d today = true ↔ (d = none ∨ ∃ s, d = some s ∧ strLe today s = true) := by
  cases d <;> simp [Sqlite.endOk]

/-- Window test at the lower bound, Mongo, in propositional form. -/
theorem mongo_startOk_iff (d : Option Nat) (now : Nat) :
    Mongo.startOk d now = true ↔ (d = none ∨ ∃ s, d = some s ∧ s ≤ now) := by
  cases d <;> simp [Mongo.startOk]

/-- Window test at the upper bound, Mongo, in propositional form. -/
theorem mongo_endOk_iff (d : Option Nat) (now : Nat) :
    Mongo.endOk d now = true ↔ (d = none ∨ ∃ s, d = some s ∧ now ≤ s) := by
  cases d <;> simp [Mongo.endOk]

/-- C6 amended: both student listings return exactly the active themes whose
window (inclusive bounds, null unbounded) contains the reference point, and
both staff listings return exactly the active themes, all ordered by
created_at descending; but the reference point differs: the SQLite service
compares stored date strings against the current UTC date string (date-only
when the stored values are date-only strings), while the MongoDB service
compares full Date timestamps against the current instant, so time-of-day
is not ignored there. -/
theorem C6_theme_listings (sdb : Sqlite.Db) (today : String) (mdb : Mongo.Db) (now : Nat) :
    List.Sorted Sqlite.themeDesc (Sqlite.studentThemes sdb today)
    ∧ List.Perm (Sqlite.studentThemes sdb today)
        (sdb.themes.filter (fun t =>
          t.is_active && Sqlite.startOk t.start_date today && Sqlite.endOk t.end_date today))
    ∧ (∀ t, t ∈ Sqlite.studentThemes sdb today ↔
        t ∈ sdb.themes ∧ t.is_active = true
        ∧ (t.start_date = none ∨ ∃ d, t.start_date = some d ∧ strLe d today = true)
        ∧ (t.end_date = none ∨ ∃ d, t.end_date = some d ∧ strLe today d = true))
    ∧ List.Sorted Sqlite.themeDesc (Sqlite.staffThemes sdb)
    ∧ (∀ t, t ∈ Sqlite.staffThemes sdb ↔ t ∈ sdb.themes ∧ t.is_active = true)
    ∧ List.Sorted Mongo.themeDesc (Mongo.studentThemes mdb now)
    ∧ (∀ t, t ∈ Mongo.studentThemes mdb now ↔
        t ∈ mdb.themes ∧ t.is_active = true
        ∧ (t.start_date = none ∨ ∃ d, t.start_date = some d ∧ d ≤ now)
        ∧ (t.end_date = none ∨ ∃ d, t.end_date = some d ∧ now ≤ d))
    ∧ List.Sorted Mongo.themeDesc (Mongo.staffThemes mdb)
    ∧ (∀ t, t ∈ Mongo.staffThemes mdb ↔ t ∈ mdb.themes ∧ t.is_active = true) := by
  refine ⟨List.sorted_insertionSort _ _, List.perm_insertionSort _ _, ?_,
    List.sorted_insertionSort _ _, ?_, List.sorted_insertionSort _ _, ?_,
    List.sorted_insertionSort _ _, ?_⟩
  · intro t
    rw [Sqlite.studentThemes, (List.perm_insertionSort _ _).mem_iff, List.mem_filter]
    simp only [Bool.and_eq_true, sql_startOk_iff, sql_endOk_iff, and_assoc]
  · intro t
    rw [Sqlite.staffThemes, (List.perm_insertionSort _ _).mem_iff, List.mem_filter]
  · intro t
    rw [Mongo.studentThemes, (List.perm_insertionSort _ _).mem_iff, List.mem_filter]
    simp only [Bool.and_eq_true, mongo_startOk_iff, mongo_endOk_iff, and_assoc]
  · intro t
    rw [Mongo.staffThemes, (List.perm_insertionSort _ _).mem_iff, List.mem_filter]

/-- Witness for C6: the same theme is visible to staff and hidden from
students at instant 0. -/
theorem C6_witness :
    theme6 ∈ Mongo.staffThemes mongoDb6 ∧ theme6 ∉ Mongo.studentThemes mongoDb6 0 := by
  have h := C6_theme_listings sqlEmpty "" mongoDb6 0
  constructor
  · exact (h.2.2.2.2.2.2.2.2 theme6).mpr ⟨by decide, by decide⟩
  · intro hmem
    rcases (h.2.2.2.2.2.2.1 theme6).mp hmem with ⟨_, _, hstart, _⟩
    rcases hstart with hnone | ⟨d, hd, hdle⟩
    · exact absurd hnone (by decide)
    · have h1 : some 1 = some d := hd
      have h2 : d = 1 := (Option.some.inj h1).symm
      rw [h2] at hdle
      exact absurd hdle (by decide)

/-! ### C7 -/

/-- A submission body where both class fields are supplied but the year is
the empty string. -/
def body7 : SubmitBody :=
  { sender_name := none, radio_name := some "Taro", school_year := some "",
    school_class := some "B", theme_id := none, content := some "hi",
    share_name := none, share_class := none, share_theme := none }

/-- C7 counterexample: both school_year and school_class are supplied, yet
the stored school_class is null — the code tests truthiness, not presence,
so the claimed formatted string is not produced. -/
theorem C7_counterexample :
    body7.school_year = some "" ∧ body7.school_class = some "B"
    ∧ (Sqlite.submitMessage sqlEmpty body7 none 0).1.messages.map
        (fun m => m.school_class) = [none]
    ∧ (Mongo.submitMessage mongoEmpty body7 none 0 "ffffffffffffffffffffffff").1.messages.map
        (fun m => m.school_class) = [none]
    ∧ (none : Option String) ≠ some ("" ++ "年" ++ "B" ++ "組") := by
  decide

/-- The derived class string when both fields are supplied non-empty. -/
theorem fullClassOf_some (b : SubmitBody) (y c : String) (hy : b.school_year = some y)
    (hy2 : y ≠ "") (hc : b.school_class = some c) (hc2 : c ≠ "") :
    fullClassOf b = some (y ++ "年" ++ c ++ "組") := by
  simp [fullClassOf, hy, hc, strTruthy, hy2, hc2]

/-- The derived class string when either field is falsy. -/
theorem fullClassOf_none (b : SubmitBody)
    (h : strTruthy b.school_year = false ∨ strTruthy b.school_class = false) :
    fullClassOf b = none := by
  rcases h with h | h <;> simp [fullClassOf, h]

/-- C7 amended: on an accepted submission, the stored school_class is the
string year ++ 年 ++ class ++ 組 exactly when both fields are supplied and
non-empty (truthy); it is null when either is absent or empty. -/
theorem C7_school_class (sdb : Sqlite.Db) (mdb : Mongo.Db) (b : SubmitBody)
    (ip : Option String) (now : Nat) (mid : String)
    (hr : strTruthy b.radio_name = true) (hc : strTruthy b.content = true)
    (ht : strTruthy b.theme_id = true → isValidObjectId (b.theme_id.getD "") = true) :
    (∃ m, (Sqlite.submitMessage sdb b ip now).1.messages = sdb.messages ++ [m]
        ∧ (∀ y c, b.school_year = some y → y ≠ "" → b.school_class = some c → c ≠ "" →
            m.school_class = some (y ++ "年" ++ c ++ "組"))
        ∧ ((strTruthy b.school_year = false ∨ strTruthy b.school_class = false) →
            m.school_class = none))
    ∧ (∃ m, (Mongo.submitMessage mdb b ip now mid).1.messages = mdb.messages ++ [m]
        ∧ (∀ y c, b.school_year = some y → y ≠ "" → b.school_class = some c → c ≠ "" →
            m.school_class = some (y ++ "年" ++ c ++ "組"))
        ∧ ((strTruthy b.school_year = false ∨ strTruthy b.school_class = false) →
            m.school_class = none)) := by
  constructor
  · refine ⟨Sqlite.newMessage b ip now sdb.nextMessageId, ?_, ?_, ?_⟩
    · rw [submit_ok_sql sdb b ip now hr hc]
    · intro y c hy hy2 hcc hc2
      exact fullClassOf_some b y c hy hy2 hcc hc2
    · intro h
      exact fullClassOf_none b h
  · refine ⟨Mongo.newMessage b ip now mid, ?_, ?_, ?_⟩
    · rw [submit_ok_mongo mdb b ip now mid hr hc ht]
    · intro y c hy hy2 hcc hc2
      exact fullClassOf_some b y c hy hy2 hcc hc2
    · intro h
      exact fullClassOf_none b h

/-- A submission body with year 2 and class B. -/
def body7ok : SubmitBody :=
  { sender_name := none, radio_name := some "Taro", school_year := some "2",
    school_class := some "B", theme_id := none, content := some "hi",
    share_name := none, share_class := none, share_theme := none }

/-- Witness for C7: year 2 and class B yield the display string 2年B組. -/
theorem C7_witness :
    ∃ m, (Sqlite.submitMessage sqlEmpty body7ok none 0).1.messages = [m]
      ∧ m.school_class = some "2年B組" := by
  obtain ⟨m, hm, hsome, -⟩ :=
    (C7_school_class sqlEmpty mongoEmpty body7ok none 0 "ffffffffffffffffffffffff"
      (by decide) (by decide) (fun h => by cases h)).1
  exact ⟨m, by simpa [sqlEmpty] using hm,
    by simpa using hsome "2" "B" rfl (by decide) rfl (by decide)⟩

/-! ### C8 -/

/-- Mapping an idempotent function twice equals mapping it once. -/
theorem map_idem {α : Type} (f : α → α) (hf : ∀ a, f (f a) = f a) (l : List α) :
    (l.map f).map f = l.map f := by
  induction l with
  | nil => rfl
  | cons a l ih => simp [hf a, ih]

/-- Mapping a function that fixes every member is the identity. -/
theorem map_fix {α : Type} (f : α → α) : ∀ (l : List α), (∀ a ∈ l, f a = a) → l.map f = l
  | [], _ => rfl
  | a :: l, h => by
    rw [List.map_cons, h a (List.mem_cons_self a l),
      map_fix f l (fun x hx => h x (List.mem_cons_of_mem a hx))]

/-- The Mongo read-update is idempotent per document. -/
theorem setRead_idem_mongo (id : String) (m : Mongo.Message) :
    Mongo.setRead id (Mongo.setRead id m) = Mongo.setRead id m := by
  by_cases hp : (m.id == id) = true <;> simp [Mongo.setRead, hp]

/-- The SQLite read-update is idempotent per row. -/
theorem setRead_idem_sql (id : String) (m : Sqlite.Message) :
    Sqlite.setRead id (Sqlite.setRead id m) = Sqlite.setRead id m := by
  by_cases hp : Sqlite.idMatches id m.id = true <;> simp [Sqlite.setRead, hp]

/-- C8 counterexample: the claim asserts markRead(id) fails with a 400 for a
malformed id, but the SQLite service answers 200 success on abd (malformed
for both backends). -/
theorem C8_counterexample :
    (Sqlite.markRead sqlEmpty "abd").2 = MarkReadResult.success
    ∧ isValidObjectId "abd" = false
    ∧ strToNat? "abd" = none
    ∧ MarkReadResult.success ≠ MarkReadResult.invalidId := by
  decide

/-- C8 amended: the MongoDB service behaves as claimed — 400 on a malformed
id, otherwise success with is_read set on the matching message, a no-op on
an unknown id, idempotent across repeats.  The SQLite service performs no
validation: it answers success unconditionally (also on malformed ids),
setting is_read on the matching numeric id when present, idempotently. -/
theorem C8_mark_read (mdb : Mongo.Db) (sdb : Sqlite.Db) (id : String) :
    (isValidObjectId id = false →
        (Mongo.markRead mdb id).2 = MarkReadResult.invalidId
        ∧ (Mongo.markRead mdb id).1 = mdb)
    ∧ (isValidObjectId id = true →
        (Mongo.markRead mdb id).2 = MarkReadResult.success
        ∧ (∀ m ∈ (Mongo.markRead mdb id).1.messages, m.id = id → m.is_read = true)
        ∧ (∀ m ∈ (Mongo.markRead mdb id).1.messages, m.id ≠ id → m ∈ mdb.messages)
        ∧ (Mongo.markRead mdb id).1.messages.length = mdb.messages.length
        ∧ ((¬ ∃ m ∈ mdb.messages, m.id = id) → (Mongo.markRead mdb id).1 = mdb))
    ∧ Mongo.markRead (Mongo.markRead mdb id).1 id = Mongo.markRead mdb id
    ∧ (Sqlite.markRead sdb id).2 = MarkReadResult.success
    ∧ (∀ m ∈ (Sqlite.markRead sdb id).1.messages,
        Sqlite.idMatches id m.id = true → m.is_read = true)
    ∧ (∀ m ∈ (Sqlite.markRead sdb id).1.messages,
        Sqlite.idMatches id m.id = false → m ∈ sdb.messages)
    ∧ (Sqlite.markRead sdb id).1.messages.length = sdb.messages.length
    ∧ Sqlite.markRead (Sqlite.markRead sdb id).1 id = Sqlite.markRead sdb id := by
  have hredM : ∀ db : Mongo.Db, isValidObjectId id = true → Mongo.markRead db id =
      ({ db with messages := db.messages.map (Mongo.setRead id) },
       MarkReadResult.success) := by
    intro db hid
    unfold Mongo.markRead
    rw [if_neg (by simp [hid])]
  refine ⟨?_, ?_, ?_, rfl, ?_, ?_, ?_, ?_⟩
  · intro hid
    constructor <;> simp [Mongo.markRead, hid]
  · intro hid
    have hmsgs : (Mongo.markRead mdb id).1.messages = mdb.messages.map (Mongo.setRead id) := by
      rw [hredM mdb hid]
    refine ⟨by rw [hredM mdb hid], ?_, ?_, ?_, ?_⟩
    · intro m hm hmid
      rw [hmsgs] at hm
      obtain ⟨a, _, hae⟩ := List.mem_map.mp hm
      by_cases hpa : (a.id == id) = true
      · rw [← hae]
        simp [Mongo.setRead, hpa]
      · exfalso
        rw [← hae] at hmid
        simp only [Mongo.setRead, hpa] at hmid
        rw [if_neg (by simp [hpa])] at hmid
        exact absurd (by simpa [beq_iff_eq] using hmid) (by simpa [beq_iff_eq] using hpa)
    · intro m hm hmid
      rw [hmsgs] at hm
      obtain ⟨a, ha, hae⟩ := List.mem_map.mp hm
      by_cases hpa : (a.id == id) = true
      · exfalso
        rw [← hae] at hmid
        simp only [Mongo.setRead] at hmid
        rw [if_pos hpa] at hmid
        exact hmid (by simpa [beq_iff_eq] using hpa)
      · rw [← hae]
        simpa [Mongo.setRead, hpa] using ha
    · rw [hmsgs, List.length_map]
    · intro hnone
      have hfix : mdb.messages.map (Mongo.setRead id) = mdb.messages := by
        refine map_fix _ _ ?_
        intro m hm
        have hne : (m.id == id) = false := by
          simp only [beq_eq_false_iff_ne]
          exact fun he => hnone ⟨m, hm, he⟩
        simp [Mongo.setRead, hne]
      rw [hredM mdb hid]
      show ({ mdb with messages := mdb.messages.map (Mongo.setRead id) } : Mongo.Db) = mdb
      rw [hfix]
  · by_cases hid : isValidObjectId id = false
    · have hred : Mongo.markRead mdb id = (mdb, MarkReadResult.invalidId) := by
        unfold Mongo.markRead
        rw [if_pos hid]
      rw [hred]
      exact hred
    · simp only [Bool.not_eq_false] at hid
      rw [hredM mdb hid]
      show Mongo.markRead { mdb with messages := mdb.messages.map (Mongo.setRead id) } id
        = ({ mdb with messages := mdb.messages.map (Mongo.setRead id) },
           MarkReadResult.success)
      rw [hredM _ hid]
      simp only [map_idem _ (setRead_idem_mongo id)]
  · intro m hm hmid
    obtain ⟨a, _, hae⟩ := List.mem_map.mp hm
    by_cases hpa : Sqlite.idMatches id a.id = true
    · rw [← hae]
      simp [Sqlite.setRead, hpa]
    · exfalso
      rw [← hae] at hmid
      simp only [Sqlite.setRead] at hmid
      rw [if_neg (by simp [hpa])] at hmid
      exact absurd hmid hpa
  · intro m hm hmid
    obtain ⟨a, ha, hae⟩ := List.mem_map.mp hm
    by_cases hpa : Sqlite.idMatches id a.id = true
    · exfalso
      rw [← hae] at hmid
      simp only [Sqlite.setRead] at hmid
      rw [if_pos hpa] at hmid
      have hmid2 : Sqlite.idMatches id a.id = false := hmid
      rw [hpa] at hmid2
      simp at hmid2
    · rw [← hae]
      simpa [Sqlite.setRead, hpa] using ha
  · simp [Sqlite.markRead, List.length_map]
  · show Sqlite.markRead { sdb with messages := sdb.messages.map (Sqlite.setRead id) } id
      = Sqlite.markRead sdb id
    unfold Sqlite.markRead
    simp only [map_idem _ (setRead_idem_sql id)]

/-- A message document with an all-digit 24-character id. -/
def msg8 : Mongo.Message :=
  { id := "999999999999999999999999", sender_name := none, radio_name := "Taro",
    school_class := none, theme_id := none, content := "hi", share_name := false,
    share_class := false, share_theme := false, ip_address := none, created_at := 0,
    is_read := false }

/-- A MongoDB state holding that one message. -/
def mongoDb8 : Mongo.Db := { themes := [], messages := [msg8], tokens := [] }

/-- Witness for C8 at concrete states. -/
theorem C8_witness :
    (Mongo.markRead mongoDb8 "zz").2 = MarkReadResult.invalidId
    ∧ (Mongo.markRead mongoDb8 "999999999999999999999999").2 = MarkReadResult.success
    ∧ Mongo.markRead (Mongo.markRead mongoDb8 "999999999999999999999999").1
        "999999999999999999999999" = Mongo.markRead mongoDb8 "999999999999999999999999"
    ∧ (Sqlite.markRead sqlEmpty "5").2 = MarkReadResult.success := by
  have h1 := C8_mark_read mongoDb8 sqlEmpty "zz"
  have h2 := C8_mark_read mongoDb8 sqlEmpty "999999999999999999999999"
  have h3 := C8_mark_read mongoDb8 sqlEmpty "5"
  exact ⟨(h1.1 (by decide)).1, (h2.2.1 (by decide)).1, h2.2.2.1, h3.2.2.2.1⟩

/-! ### C9 -/

/-- C9: on an accepted submission, each stored share flag is the JavaScript
truthiness coercion of the corresponding request value, in both backends;
truthy values include every non-empty string (such as the string false), and
absent or falsy values coerce to false. -/
theorem C9_share_flags (sdb : Sqlite.Db) (mdb : Mongo.Db) (b : SubmitBody)
    (ip : Option String) (now : Nat) (mid : String)
    (hr : strTruthy b.radio_name = true) (hc : strTruthy b.content = true)
    (ht : strTruthy b.theme_id = true → isValidObjectId (b.theme_id.getD "") = true) :
    (∃ m, (Sqlite.submitMessage sdb b ip now).1.messages = sdb.messages ++ [m]
        ∧ m.share_name = jsTruthy b.share_name
        ∧ m.share_class = jsTruthy b.share_class
        ∧ m.share_theme = jsTruthy b.share_theme)
    ∧ (∃ m, (Mongo.submitMessage mdb b ip now mid).1.messages = mdb.messages ++ [m]
        ∧ m.share_name = jsTruthy b.share_name
        ∧ m.share_class = jsTruthy b.share_class
        ∧ m.share_theme = jsTruthy b.share_theme)
    ∧ (∀ s, s ≠ "" → jsTruthy (some (Jval.jstr s)) = true)
    ∧ jsTruthy (some (Jval.jstr "false")) = true
    ∧ jsTruthy none = false
    ∧ jsTruthy (some Jval.jnull) = false
    ∧ jsTruthy (some (Jval.jbool false)) = false
    ∧ jsTruthy (some (Jval.jnum 0)) = false := by
  refine ⟨⟨Sqlite.newMessage b ip now sdb.nextMessageId,
      by rw [submit_ok_sql sdb b ip now hr hc], rfl, rfl, rfl⟩,
    ⟨Mongo.newMessage b ip now mid,
      by rw [submit_ok_mongo mdb b ip now mid hr hc ht], rfl, rfl, rfl⟩,
    ?_, by decide, rfl, rfl, rfl, by decide⟩
  intro s hs
  simp [jsTruthy, hs]

/-- A submission body whose share flags are the string false, the boolean
false and an absent value. -/
def body9 : SubmitBody :=
  { sender_name := none, radio_name := some "Taro", school_year := none, school_class := none,
    theme_id := none, content := some "hi",
    share_name := some (Jval.jstr "false"), share_class := some (Jval.jbool false),
    share_theme := none }

/-- Witness for C9: the string false is stored as share_name = true, the
boolean false and the absent flag as false. -/
theorem C9_witness :
    ∃ m, (Sqlite.submitMessage sqlEmpty body9 none 0).1.messages = [m]
      ∧ m.share_name = true ∧ m.share_class = false ∧ m.share_theme = false := by
  obtain ⟨m, hm, h1, h2, h3⟩ :=
    (C9_share_flags sqlEmpty mongoEmpty body9 none 0 "ffffffffffffffffffffffff"
      (by decide) (by decide) (fun h => by cases h)).1
  exact ⟨m, hm, h1, h2, h3⟩

/-! ### C10 -/

/-- A falsy-normalised optional text field is never the empty string. -/
theorem norm_ne_empty (o : Option String) :
    (if strTruthy o then o else none) ≠ some "" := by
  cases o with
  | none => simp [strTruthy]
  | some s =>
    by_cases hs : s = ""
    · simp [strTruthy, hs]
    · simp [strTruthy, hs]

/-- Reduction of the SQLite theme-creation route on accepted input. -/
theorem create_ok_sql (db : Sqlite.Db) (tb : ThemeBody) (now : Nat)
    (h : jsTruthy tb.title = true) :
    Sqlite.createTheme db tb now =
      ({ db with
          themes := db.themes ++ [Sqlite.newTheme tb now db.nextThemeId]
          nextThemeId := db.nextThemeId + 1 },
       ThemeCreateResult.created db.nextThemeId) := by
  unfold Sqlite.createTheme
  rw [if_neg (by simp [h])]

/-- C10: both services normalise falsy optional text fields to null at write
time — a falsy sender_name is stored as null on submission and each falsy
date is independently stored as null on theme creation (in the MongoDB
service a falsy field casts to ok-none before any Date cast, whatever the
other field holds), so a newly stored row never carries the empty string in
those fields — and a falsy title (the empty string, or the number 0) is
rejected as absent with a 400 and no row. -/
theorem C10_falsy_null (sdb : Sqlite.Db) (mdb : Mongo.Db) (tb : ThemeBody) (b : SubmitBody)
    (ip : Option String) (now : Nat) (castDate : String → Option Nat) (mid tid : String) :
    (jsTruthy tb.title = false →
        (Sqlite.createTheme sdb tb now).2 = ThemeCreateResult.missingTitle
        ∧ (Sqlite.createTheme sdb tb now).1 = sdb
        ∧ (Mongo.createTheme mdb tb castDate now tid).2 = ThemeCreateResult.missingTitle
        ∧ (Mongo.createTheme mdb tb castDate now tid).1 = mdb)
    ∧ jsTruthy (some (Jval.jstr "")) = false
    ∧ jsTruthy (some (Jval.jnum 0)) = false
    ∧ (jsTruthy tb.title = true →
        ∃ th, (Sqlite.createTheme sdb tb now).1.themes = sdb.themes ++ [th]
          ∧ th.start_date = (if strTruthy tb.start_date then tb.start_date else none)
          ∧ th.end_date = (if strTruthy tb.end_date then tb.end_date else none)
          ∧ th.start_date ≠ some "" ∧ th.end_date ≠ some "")
    ∧ (jsTruthy tb.title = true →
        ∀ sd ed, Mongo.castField castDate tb.start_date = Except.ok sd →
          Mongo.castField castDate tb.end_date = Except.ok ed →
          ∃ th, (Mongo.createTheme mdb tb castDate now tid).1.themes = mdb.themes ++ [th]
            ∧ th.start_date = sd ∧ th.end_date = ed)
    ∧ (∀ f, strTruthy f = false → Mongo.castField castDate f = Except.ok none)
    ∧ (strTruthy b.radio_name = true → strTruthy b.content = true →
        (∃ m, (Sqlite.submitMessage sdb b ip now).1.messages = sdb.messages ++ [m]
          ∧ m.sender_name = (if strTruthy b.sender_name then b.sender_name else none)
          ∧ m.sender_name ≠ some "")
        ∧ ((strTruthy b.theme_id = true → isValidObjectId (b.theme_id.getD "") = true) →
            ∃ m, (Mongo.submitMessage mdb b ip now mid).1.messages = mdb.messages ++ [m]
              ∧ m.sender_name = (if strTruthy b.sender_name then b.sender_name else none)
              ∧ m.sender_name ≠ some "")) := by
  refine ⟨?_, rfl, by decide, ?_, ?_, ?_, ?_⟩
  · intro h
    refine ⟨?_, ?_, ?_, ?_⟩ <;> simp [Sqlite.createTheme, Mongo.createTheme, h]
  · intro h
    exact ⟨Sqlite.newTheme tb now sdb.nextThemeId, by rw [create_ok_sql sdb tb now h],
      rfl, rfl, norm_ne_empty tb.start_date, norm_ne_empty tb.end_date⟩
  · intro h sd ed h1 h2
    have hred : Mongo.createTheme mdb tb castDate now tid =
        ({ mdb with themes := mdb.themes ++ [Mongo.newTheme tb sd ed now tid] },
         ThemeCreateResult.created tid) := by
      unfold Mongo.createTheme
      rw [if_neg (by simp [h]), h1, h2]
    exact ⟨Mongo.newTheme tb sd ed now tid, by rw [hred], rfl, rfl⟩
  · intro f hf
    simp [Mongo.castField, hf]
  · intro hr hc
    constructor
    · exact ⟨Sqlite.newMessage b ip now sdb.nextMessageId,
        by rw [submit_ok_sql sdb b ip now hr hc], rfl, norm_ne_empty b.sender_name⟩
    · intro ht
      exact ⟨Mongo.newMessage b ip now mid,
        by rw [submit_ok_mongo mdb b ip now mid hr hc ht], rfl, norm_ne_empty b.sender_name⟩

/-- A theme body whose title is the empty string. -/
def tbBad : ThemeBody :=
  { title := some (Jval.jstr ""), description := none, start_date := some "2024-01-01",
    end_date := none }

/-- A theme body with a proper title and an empty-string start_date. -/
def tb10 : ThemeBody :=
  { title := some (Jval.jstr "Theme"), description := none, start_date := some "",
    end_date := none }

/-- A theme body with a proper title, an empty-string start_date and a
truthy, castable end_date. -/
def tb10m : ThemeBody :=
  { title := some (Jval.jstr "Theme"), description := none, start_date := some "",
    end_date := some "2024-12-31" }

/-- A submission body with an empty-string sender_name. -/
def body10 : SubmitBody :=
  { sender_name := some "", radio_name := some "Taro", school_year := none,
    school_class := none, theme_id := none, content := some "hi",
    share_name := none, share_class := none, share_theme := none }

/-- Witness for C10: the empty-string title is rejected; the empty-string
start_date and sender_name are stored as null — in the MongoDB service also
when the end_date of the same request is truthy and castable. -/
theorem C10_witness :
    (Sqlite.createTheme sqlEmpty tbBad 0).2 = ThemeCreateResult.missingTitle
    ∧ (∃ th, (Sqlite.createTheme sqlEmpty tb10 0).1.themes = [th] ∧ th.start_date = none)
    ∧ (∃ th, (Mongo.createTheme mongoEmpty tb10m (fun _ => some 20089) 0
          "aaaaaaaaaaaaaaaaaaaaaaaa").1.themes = [th]
        ∧ th.start_date = none ∧ th.end_date = some 20089)
    ∧ (∃ m, (Sqlite.submitMessage sqlEmpty body10 none 0).1.messages = [m]
        ∧ m.sender_name = none) := by
  have hbad := C10_falsy_null sqlEmpty mongoEmpty tbBad body10 none 0 (fun _ => none)
    "aaaaaaaaaaaaaaaaaaaaaaaa" "aaaaaaaaaaaaaaaaaaaaaaaa"
  have hok := C10_falsy_null sqlEmpty mongoEmpty tb10 body10 none 0 (fun _ => none)
    "aaaaaaaaaaaaaaaaaaaaaaaa" "aaaaaaaaaaaaaaaaaaaaaaaa"
  have hmix := C10_falsy_null sqlEmpty mongoEmpty tb10m body10 none 0 (fun _ => some 20089)
    "aaaaaaaaaaaaaaaaaaaaaaaa" "aaaaaaaaaaaaaaaaaaaaaaaa"
  refine ⟨(hbad.1 (by decide)).1, ?_, ?_, ?_⟩
  · obtain ⟨th, hth, hsd, -, -, -⟩ := hok.2.2.2.1 (by decide)
    refine ⟨th, hth, ?_⟩
    rw [hsd]
    decide
  · obtain ⟨th, hth, hsd, hed⟩ := hmix.2.2.2.2.1 (by decide) none (some 20089)
      (hmix.2.2.2.2.2.1 tb10m.start_date (by decide)) rfl
    exact ⟨th, hth, hsd, hed⟩
  · obtain ⟨⟨m, hm, hsn, -⟩, -⟩ := hok.2.2.2.2.2.2 (by decide) (by decide)
    refine ⟨m, hm, ?_⟩
    rw [hsn]
    decide
